import Mathlib

/-!
Verification development for the AI Career Coach scoring core.

The repository ships the scoring knowledge bases (markdown tables with the
weight profiles, seniority keyword table and pseudocode, stability
deduction tables, and the skill taxonomy), the frontend TypeScript client,
and the API type declarations.  The definitions below are shallow
embeddings of those artifacts; where the backend implementation itself is
absent from the repository, a definition is modelled from the
specification and marked as such in its doc comment.
-/

/- ===================== ATS weight profiles (knowledge base,
   "Dynamic Weights by Role Type" and "Scoring Weights" tables) ====== -/

/-- Role types of the "Dynamic Weights by Role Type" section of the ATS
scoring knowledge base: technical, design/UX, data/analytics,
product/management, plus a fallback for any other role. -/
inductive RoleType where
  | technical
  | design_ux
  | data_analytics
  | product_management
  | other
deriving DecidableEq

/-- A weight profile: named components with their integer percentage
weights, as listed in the knowledge-base tables. -/
structure WeightProfile where
  components : List (String × Nat)
deriving DecidableEq

/-- Default profile, from the "Scoring Weights (100 points total)" table:
skills 40, experience 30, education 15, certifications 10, keywords 5. -/
def defaultWeightProfile : WeightProfile :=
  ⟨[("skills_match", 40), ("experience", 30), ("education", 15),
    ("certifications", 10), ("keywords", 5)]⟩

/-- "Technical Roles" table of "Dynamic Weights by Role Type". -/
def technicalWeightProfile : WeightProfile :=
  ⟨[("skills_match", 40), ("experience", 30), ("education", 15),
    ("certifications", 10), ("keywords", 5)]⟩

/-- "Design/UX Roles" table of "Dynamic Weights by Role Type". -/
def designWeightProfile : WeightProfile :=
  ⟨[("portfolio_quality", 35), ("skills_match", 30), ("experience", 20),
    ("tools_proficiency", 10), ("education", 5)]⟩

/-- "Data/Analytics Roles" table of "Dynamic Weights by Role Type". -/
def dataWeightProfile : WeightProfile :=
  ⟨[("skills_match", 35), ("experience", 30), ("certifications", 15),
    ("tools", 15), ("education", 5)]⟩

/-- "Product/Management Roles" table of "Dynamic Weights by Role Type". -/
def productWeightProfile : WeightProfile :=
  ⟨[("experience", 40), ("leadership_signals", 25), ("skills_match", 20),
    ("education", 10), ("certifications", 5)]⟩

/-- Profile selection keyed by detected role type; roles outside the four
listed families use the default profile. -/
def selectWeightProfile : RoleType → WeightProfile
  | .technical => technicalWeightProfile
  | .design_ux => designWeightProfile
  | .data_analytics => dataWeightProfile
  | .product_management => productWeightProfile
  | .other => defaultWeightProfile

/-- Sum of the component weights of a profile. -/
def WeightProfile.totalWeight (p : WeightProfile) : Nat :=
  (p.components.map Prod.snd).sum

/- ===================== Match-level bucketing (knowledge base
   "Score Interpretation" table; frontend getScoreColor) ============= -/

/-- The four match levels of the MatchLevel API type. -/
inductive MatchLevel where
  | excellent
  | good
  | fair
  | poor
deriving DecidableEq

/-- Bucketing per the "Score Interpretation" table of the ATS scoring
knowledge base: 80-100 excellent, 60-79 good, 40-59 fair, 0-39 poor. -/
def matchLevelOf (p : Nat) : MatchLevel :=
  if 80 ≤ p ∧ p ≤ 100 then .excellent
  else if 60 ≤ p ∧ p ≤ 79 then .good
  else if 40 ≤ p ∧ p ≤ 59 then .fair
  else .poor

/-- The color classes returned by getScoreColor in ScoreHero.tsx. -/
inductive ScoreColor where
  | neonGreen
  | neonCyan
  | neonYellow
  | red
deriving DecidableEq

/-- getScoreColor from ScoreHero.tsx: score at least 80 is neon green,
at least 60 neon cyan, at least 40 neon yellow, otherwise red. -/
def getScoreColor (score : Nat) : ScoreColor :=
  if 80 ≤ score then .neonGreen
  else if 60 ≤ score then .neonCyan
  else if 40 ≤ score then .neonYellow
  else .red

/- ===================== Title-based seniority detection (job-titles
   knowledge base, SENIORITY_KEYWORDS and detect_seniority) ========== -/

/-- The SENIORITY_KEYWORDS table of the job-titles knowledge base, in its
source order (positive level modifiers first, then negative ones). -/
def SENIORITY_KEYWORDS : List (String × Int) :=
  [("senior", 3), ("sênior", 3), ("sr", 3), ("lead", 4), ("líder", 4),
   ("principal", 5), ("staff", 5), ("distinguished", 6), ("fellow", 7),
   ("architect", 5), ("arquiteto", 5), ("head", 6), ("director", 6),
   ("diretor", 6), ("vp", 7), ("vice president", 7), ("chief", 8),
   ("c-level", 8), ("cto", 8), ("cio", 8), ("ciso", 8), ("cdo", 8),
   ("cpo", 8),
   ("junior", -2), ("júnior", -2), ("jr", -2), ("associate", -1),
   ("associado", -1), ("entry", -2), ("entry-level", -2), ("intern", -3),
   ("estagiário", -3), ("trainee", -3)]

/-- ASCII lowercasing of a string, the semantics of the Python
title.lower() call on the titles exercised here; implemented over the
character data so that concrete titles evaluate inside the kernel. -/
def lowerString (s : String) : String :=
  String.mk (s.data.map Char.toLower)

/-- Occurrence of one character list inside another: the needle is a
prefix of some suffix of the haystack. -/
def charsContain : List Char → List Char → Bool
  | needle, [] => needle.isEmpty
  | needle, hay@(_ :: rest) =>
      needle.isPrefixOf hay || charsContain needle rest

/-- Raw substring containment, the semantics of the Python expression
"keyword in title_lower" used by detect_seniority. -/
def substrB (needle hay : String) : Bool :=
  charsContain needle.toList hay.toList

/-- The for-loop body of detect_seniority: walk the keyword table in
order and return the modifier of the first keyword contained in the
lowercased title (the loop breaks at the first hit); 0 when no keyword
is contained. -/
def firstSeniorityModifier (titleLower : String) :
    List (String × Int) → Int
  | [] => 0
  | kw :: rest =>
      if substrB kw.1 titleLower then kw.2
      else firstSeniorityModifier titleLower rest

/-- detect_seniority from the job-titles knowledge base: base level 2,
plus the modifier of the first keyword of SENIORITY_KEYWORDS contained
as a raw substring in the lowercased title, clamped to [0, 8]. -/
def detect_seniority (title : String) : Int :=
  max 0 (min 8 (2 + firstSeniorityModifier (lowerString title) SENIORITY_KEYWORDS))

/-- True when the character counts as a word character for the purpose
of word-boundary matching. -/
def isWordChar (c : Char) : Bool := c.isAlphanum

/-- Helper for word-boundary occurrence: scans the haystack remembering
the previous character; a hit needs a non-word (or absent) character on
both sides of the needle. -/
def wbOccursAux (kw : List Char) : Option Char → List Char → Bool
  | _, [] => false
  | prev, c :: rest =>
      ((match prev with | none => true | some p => !(isWordChar p)) &&
       kw.isPrefixOf (c :: rest) &&
       (match ((c :: rest).drop kw.length).head? with
        | none => true
        | some n => !(isWordChar n)))
      || wbOccursAux kw (some c) rest

/-- Word-boundary occurrence of a keyword inside a string. -/
def wordBoundaryOccurs (kw s : String) : Bool :=
  wbOccursAux kw.toList none s.toList

/-- Modelled from the spec: the claimed detectSeniorityFromTitle
algorithm — base level 2, add the weight of EACH keyword matched at word
boundaries (so "lead" does not match inside "leadership"), do not double
count a matched keyword that is contained in a longer matched keyword,
clamp to [0, 8].  Written only to be compared against the
detect_seniority code above. -/
def detectSeniorityClaimModel (title : String) : Int :=
  let tl := lowerString title
  let matched := SENIORITY_KEYWORDS.filter (fun p => wordBoundaryOccurs p.1 tl)
  let kept := matched.filter (fun p =>
    !(matched.any (fun q => p.1.length < q.1.length && substrB p.1 q.1)))
  max 0 (min 8 (2 + (kept.map Prod.snd).sum))

/- ===================== Stability analyzer: tenure deductions
   (career-stability knowledge base) ================================= -/

/-- Contract types of an experience entry. -/
inductive ContractType where
  | clt
  | pj
  | contractor
  | unknown
deriving DecidableEq

/-- Base per-entry tenure deduction from the "Stability Score
Calculation" block: tenure under 6 months deducts 15, 6-12 months
deducts 10, 12-18 months deducts 5, 18 months or more deducts nothing. -/
def baseTenureDeduction (months : Nat) : ℚ :=
  if months < 6 then 15
  else if months < 12 then 10
  else if months < 18 then 5
  else 0

/-- Contract-type-adjusted tenure deduction.  For PJ the knowledge base
gives explicit values under "Important Adjustments": tenure under 6
months deducts 5 (not 15) and tenure 6-12 months deducts 0 (not 10);
outside those ranges the PJ table row "Reduce penalties by 50%" applies.
For contractor the table row "Reduce penalties by 70%" applies.  CLT and
unknown use standard scoring. -/
def tenureDeduction : ContractType → Nat → ℚ
  | .pj, m =>
      if m < 6 then 5
      else if m < 12 then 0
      else baseTenureDeduction m / 2
  | .contractor, m => baseTenureDeduction m * 3 / 10
  | .clt, m => baseTenureDeduction m
  | .unknown, m => baseTenureDeduction m

/-- Layoff-era context of an experience entry, from the "Tech Industry
Layoffs (2022-2024)" section: the year the role ended, whether the
company matches the known layoff list, and which mitigating keywords
appear in the entry description. -/
structure LayoffContext where
  endYear : Nat
  knownLayoffCompany : Bool
  layoffKeyword : Bool
  restructuringKeyword : Bool
  startupShutdown : Bool
deriving DecidableEq

/-- The "Scoring Adjustments" block of the layoffs section, applied to a
raw deduction d.  All adjustments are gated on the role ending
2022-2024.  The categorical no-penalty rules (explicit layoff mention,
startup shutdown) dominate the percentage reductions; otherwise a known
layoff company halves the deduction and a restructuring mention reduces
it by 30 percent. -/
def layoffAdjustedDeduction (e : LayoffContext) (d : ℚ) : ℚ :=
  if 2022 ≤ e.endYear ∧ e.endYear ≤ 2024 then
    if e.layoffKeyword || e.startupShutdown then 0
    else if e.knownLayoffCompany then d / 2
    else if e.restructuringKeyword then d * 7 / 10
    else d
  else d

/-- Full tenure deduction of one experience entry: the contract-adjusted
base deduction, further adjusted by the layoff-era context. -/
def entryTenureDeduction (ct : ContractType) (months : Nat)
    (e : LayoffContext) : ℚ :=
  layoffAdjustedDeduction e (tenureDeduction ct months)

/- ===================== Skill taxonomy (skill-relationships
   knowledge base: aliases, categories, inference database) ========== -/

/-- The "Skill Aliases" table: common abbreviations and alternate names
with their canonical names, in source order. -/
def SKILL_ALIASES : List (String × String) :=
  [("k8s", "kubernetes"), ("k8", "kubernetes"), ("js", "javascript"),
   ("ts", "typescript"), ("py", "python"), ("rb", "ruby"),
   ("pg", "postgresql"), ("postgres", "postgresql"), ("mongo", "mongodb"),
   ("es", "elasticsearch"), ("tf", "terraform"), ("gh", "github"),
   ("gha", "github actions"), ("rds", "aws rds"), ("ec2", "aws ec2"),
   ("s3", "aws s3"), ("gke", "google kubernetes engine"),
   ("eks", "amazon elastic kubernetes service"),
   ("aks", "azure kubernetes service"), ("ml", "machine learning"),
   ("ai", "artificial intelligence"), ("nlp", "natural language processing"),
   ("cv", "computer vision"), ("llm", "large language model"),
   ("rag", "retrieval augmented generation"), ("ci", "continuous integration"),
   ("cd", "continuous deployment"), ("tdd", "test driven development"),
   ("bdd", "behavior driven development"),
   ("oop", "object oriented programming"), ("fp", "functional programming"),
   ("api", "application programming interface"),
   ("sdk", "software development kit"), ("cli", "command line interface"),
   ("ui", "user interface"), ("ux", "user experience")]

/-- The "Skill Categories" section: category name with its skill list. -/
def SKILL_CATEGORIES : List (String × List String) :=
  [("languages",
    ["python", "java", "javascript", "typescript", "go", "rust", "c++",
     "c", "ruby", "php", "swift", "kotlin", "scala", "r", "sql", "bash",
     "powershell", "dart", "elixir"]),
   ("cloud",
    ["aws", "azure", "gcp", "digitalocean", "heroku", "vercel", "netlify",
     "cloudflare", "railway", "render", "fly.io"]),
   ("data",
    ["postgresql", "mysql", "mongodb", "redis", "elasticsearch",
     "cassandra", "dynamodb", "snowflake", "bigquery", "redshift",
     "supabase", "planetscale", "neon"]),
   ("devops",
    ["docker", "kubernetes", "terraform", "ansible", "jenkins",
     "github actions", "gitlab ci", "circleci", "argocd", "pulumi"]),
   ("design",
    ["figma", "figjam", "sketch", "adobe xd", "invision", "photoshop",
     "illustrator", "framer", "principle", "zeplin", "abstract"]),
   ("ux research",
    ["user testing", "usability testing", "user interviews", "surveys",
     "journey mapping", "personas", "card sorting", "heuristic evaluation",
     "a/b testing"]),
   ("ui design",
    ["typography", "color theory", "layout", "grid systems",
     "visual hierarchy", "spacing", "responsive design", "mobile-first",
     "accessibility", "wcag"]),
   ("product",
    ["jira", "confluence", "notion", "asana", "trello", "linear",
     "productboard", "amplitude", "mixpanel", "hotjar", "fullstory",
     "segment"]),
   ("low-code",
    ["n8n", "make", "zapier", "airtable", "notion", "retool", "bubble",
     "webflow", "appsmith", "power automate", "power apps"]),
   ("ai/llm",
    ["langchain", "crewai", "llamaindex", "openai api", "anthropic api",
     "hugging face", "transformers", "pytorch", "tensorflow", "rag",
     "vector databases", "prompt engineering", "fine-tuning", "embeddings",
     "ollama", "semantic kernel"]),
   ("qa",
    ["selenium", "cypress", "jest", "mocha", "pytest", "junit", "postman",
     "k6", "locust", "playwright", "vitest"])]

/-- The "Skill Inference Database" tables, lowercased: each listed skill
with the skills a candidate likely also has. -/
def SKILL_INFERENCE : List (String × List String) :=
  [("python", ["pip", "virtualenv", "pytest", "type hints"]),
   ("python (data)", ["pandas", "numpy", "jupyter", "matplotlib"]),
   ("python (ml)", ["tensorflow", "pytorch", "scikit-learn", "keras"]),
   ("python (web)", ["django", "flask", "fastapi", "sqlalchemy"]),
   ("javascript", ["npm", "node.js", "html", "css"]),
   ("typescript", ["javascript", "node.js", "type safety"]),
   ("java", ["maven", "gradle", "spring", "jvm"]),
   ("go", ["goroutines", "channels", "go modules"]),
   ("rust", ["cargo", "ownership", "memory safety"]),
   ("c++", ["pointers", "memory management", "stl"]),
   ("react", ["jsx", "hooks", "redux", "react-router"]),
   ("vue", ["vuex", "vue-router", "composition api"]),
   ("angular", ["rxjs", "typescript", "dependency injection"]),
   ("next.js", ["react", "ssr", "api routes", "vercel"]),
   ("svelte", ["svelte-kit", "reactivity"]),
   ("django", ["python", "orm", "admin", "rest framework"]),
   ("flask", ["python", "jinja2", "blueprints"]),
   ("fastapi", ["python", "pydantic", "async", "openapi"]),
   ("spring boot", ["java", "maven", "hibernate", "jpa"]),
   ("node.js", ["npm", "express", "javascript"]),
   ("graphql", ["apollo", "schema design", "resolvers"]),
   ("rest api", ["http methods", "status codes", "json"]),
   ("aws", ["ec2", "s3", "lambda", "iam", "cloudformation"]),
   ("azure", ["azure functions", "blob storage", "ad"]),
   ("gcp", ["compute engine", "cloud storage", "bigquery"]),
   ("docker", ["containers", "dockerfile", "compose"]),
   ("kubernetes", ["pods", "services", "deployments", "helm"]),
   ("terraform", ["infrastructure as code", "hcl", "modules"]),
   ("postgresql", ["sql", "acid", "indexing", "constraints"]),
   ("mysql", ["sql", "replication", "innodb"]),
   ("mongodb", ["nosql", "document stores", "aggregation"]),
   ("redis", ["caching", "pub/sub", "data structures"]),
   ("elasticsearch", ["search", "indexing", "kibana"]),
   ("kafka", ["streaming", "pub/sub", "partitions"]),
   ("spark", ["distributed computing", "dataframes", "scala/python"]),
   ("airflow", ["dag", "scheduling", "operators"]),
   ("dbt", ["sql", "data modeling", "testing"]),
   ("snowflake", ["data warehouse", "sql", "cloud"]),
   ("bigquery", ["sql", "gcp", "analytics"]),
   ("github actions", ["yaml", "workflows", "ci/cd"]),
   ("jenkins", ["pipelines", "groovy", "plugins"]),
   ("gitlab ci", ["yaml", "runners", "pipelines"]),
   ("argocd", ["kubernetes", "gitops", "helm"]),
   ("prometheus", ["metrics", "alerting", "grafana"]),
   ("figma", ["figjam", "auto layout", "components", "variables",
              "dev mode", "prototyping"]),
   ("sketch", ["symbols", "libraries", "plugins", "zeplin"]),
   ("adobe xd", ["adobe creative cloud", "prototyping", "auto-animate"]),
   ("ux research", ["user interviews", "surveys", "usability testing",
                    "journey mapping", "personas"]),
   ("ui design", ["typography", "color theory", "layout", "grid systems",
                  "visual hierarchy", "spacing"]),
   ("prototyping", ["interactions", "animations", "user flows",
                    "click-through demos", "micro-interactions"]),
   ("design systems", ["component libraries", "design tokens",
                       "style guides", "documentation", "storybook"]),
   ("framer", ["code-based prototyping", "react basics", "animations"]),
   ("invision", ["prototyping", "design specs", "handoff"]),
   ("accessibility", ["wcag", "screen readers", "color contrast",
                      "keyboard navigation", "aria"]),
   ("n8n", ["webhooks", "apis", "json", "automation workflows",
            "http requests"]),
   ("make (integromat)", ["scenarios", "modules", "data transformation",
                          "filters"]),
   ("zapier", ["zaps", "triggers", "actions", "multi-step workflows",
               "paths"]),
   ("power automate", ["microsoft 365", "azure", "sharepoint",
                       "power platform"]),
   ("airtable", ["spreadsheets", "databases", "apis", "views",
                 "automations"]),
   ("notion", ["databases", "templates", "formulas", "api",
               "integrations"]),
   ("retool", ["sql", "react basics", "internal tools",
               "database queries"]),
   ("bubble", ["no-code apps", "workflows", "database design"]),
   ("webflow", ["html", "css", "responsive design", "cms"]),
   ("appsmith", ["sql", "javascript", "internal tools", "apis"]),
   ("langchain", ["python", "llms", "chains", "agents", "rag", "memory",
                  "prompts"]),
   ("crewai", ["multi-agent systems", "langchain", "python",
               "task orchestration"]),
   ("openai api", ["rest apis", "prompt engineering", "tokens",
                   "function calling"]),
   ("rag", ["vector databases", "embeddings", "semantic search",
            "chunking"]),
   ("prompt engineering", ["llms", "chatgpt", "claude",
                           "chain-of-thought", "few-shot learning"]),
   ("hugging face", ["transformers", "pytorch", "model fine-tuning",
                     "datasets"]),
   ("vector dbs", ["pinecone", "weaviate", "chroma", "faiss",
                   "embeddings", "similarity search"]),
   ("ollama", ["local llms", "model deployment", "apis", "quantization"]),
   ("llamaindex", ["rag", "data connectors", "indexing", "query engines"]),
   ("semantic kernel", [".net", "ai orchestration", "plugins", "memory"]),
   ("amplitude", ["event tracking", "funnels", "cohorts", "a/b testing"]),
   ("mixpanel", ["event analytics", "user segmentation", "retention"]),
   ("hotjar", ["heatmaps", "session recordings", "surveys", "feedback"]),
   ("fullstory", ["session replay", "error tracking", "funnels"]),
   ("google analytics", ["web analytics", "utm tracking", "goals",
                         "events"]),
   ("segment", ["data pipelines", "customer data platform",
                "integrations"]),
   ("jira", ["agile", "sprints", "backlog", "roadmap"]),
   ("linear", ["issue tracking", "roadmaps", "cycles"])]

/-- Case-insensitive normalization applied before any taxonomy lookup. -/
def normSkill (s : String) : String := lowerString s

/-- resolve_alias: map an alias to its canonical name; a token that is
not an alias resolves to itself. -/
def resolve_alias (s : String) : String :=
  (SKILL_ALIASES.find? (fun p => p.1 = s)).elim s Prod.snd

/-- inferred_skills: the skills implied by knowledge of the given skill
per the inference database; empty for a skill not in the database. -/
def inferred_skills (s : String) : List String :=
  (SKILL_INFERENCE.find? (fun p => p.1 = s)).elim [] Prod.snd

/-- same_category: some category list contains both skills. -/
def same_category (a b : String) : Prop :=
  ∃ c ∈ SKILL_CATEGORIES, a ∈ c.2 ∧ b ∈ c.2

instance : DecidablePred fun p : String × String => same_category p.1 p.2 :=
  fun p => by unfold same_category; infer_instance

instance (a b : String) : Decidable (same_category a b) := by
  unfold same_category; infer_instance

/-- Category resolution: the first category whose list contains the
skill, or "uncategorized" when no category lists it. -/
def skillCategory (s : String) : String :=
  (SKILL_CATEGORIES.find? (fun c => s ∈ c.2)).elim "uncategorized" Prod.fst

/-- The "Match Calculation Logic" section: direct match 100 percent,
alias match 100 percent, inferred match 80 percent, category match 50
percent, and no weight otherwise; lookups are case-insensitive. -/
def matchTier (resumeSkill requiredSkill : String) : ℚ :=
  if normSkill resumeSkill = normSkill requiredSkill then 1
  else if resolve_alias (normSkill resumeSkill) = normSkill requiredSkill then 1
  else if normSkill requiredSkill ∈ inferred_skills (normSkill resumeSkill) then 4 / 5
  else if same_category (normSkill resumeSkill) (normSkill requiredSkill) then 1 / 2
  else 0

/-- A token the taxonomy knows: an alias, a member of some category
list, or a key of the inference database. -/
def RecognizedSkill (s : String) : Prop :=
  (∃ p ∈ SKILL_ALIASES, p.1 = s) ∨
  (∃ c ∈ SKILL_CATEGORIES, s ∈ c.2) ∨
  (∃ p ∈ SKILL_INFERENCE, p.1 = s)

instance (s : String) : Decidable (RecognizedSkill s) := by
  unfold RecognizedSkill; infer_instance

/- ===================== ATS scorer (spec-modelled: the backend
   implementation is not part of the repository) ===================== -/

/-- Modelled from the spec: the missing backend ATSScorer skill
component — min(2 x matched required + 1 x matched preferred,
component max). -/
def skillScore (matchedRequired matchedPreferred maxPts : ℚ) : ℚ :=
  min (2 * matchedRequired + matchedPreferred) maxPts

/-- Modelled from the spec: the missing backend ATSScorer experience
component — a monotonic ramp against the required years that saturates
at the component max once the requirement is met; an empty resume (zero
years) scores zero. -/
def experienceScore (years reqYears maxPts : ℚ) : ℚ :=
  if reqYears = 0 then (if years = 0 then 0 else maxPts)
  else maxPts * min years reqYears / reqYears

/-- Modelled from the spec: the missing backend ATSScorer education
component — degree/field relevance points capped at the component max. -/
def educationScore (relevancePts maxPts : ℚ) : ℚ :=
  min relevancePts maxPts

/-- Modelled from the spec: the missing backend ATSScorer certification
component — count of relevant certifications times fixed points,
capped. -/
def certificationScore (count fixedPoints maxPts : ℚ) : ℚ :=
  min (count * fixedPoints) maxPts

/-- Modelled from the spec: the missing backend ATSScorer keyword
component — matched distinct keywords over total distinct keywords in
the job text, scaled to the component max; an empty job text has no
keywords and scores zero. -/
def keywordScore (matched total maxPts : ℚ) : ℚ :=
  if total = 0 then 0 else maxPts * matched / total

/-- Modelled from the spec: the missing backend ATSScorer total — the
sum of the five components, clamped to [0, 100]. -/
def atsTotalScore (s e ed c k : ℚ) : ℚ :=
  max 0 (min 100 (s + e + ed + c + k))

/- ===================== Client analysis hook (runAnalysis in the
   frontend useAnalysis hook) ======================================== -/

/-- The AnalysisStatus union of the frontend types module. -/
inductive AnalysisStatus where
  | idle
  | uploading
  | analyzing
  | done
  | error
deriving DecidableEq

/-- The slice of the frontend AnalysisState that runAnalysis reads and
writes, generic in the shape of the analysis response payload. -/
structure AnalysisState (R : Type) where
  status : AnalysisStatus
  resumeText : Option String
  result : Option R
  error : Option String

/-- A job posting as entered in the client: id and text. -/
structure JobInput where
  id : String
  text : String

/-- JavaScript truthiness of the nullable resumeText field: null and
the empty string are falsy. -/
def truthyText : Option String → Bool
  | none => false
  | some s => !(s = "")

/-- runAnalysis from the useAnalysis hook, as a pure state transition:
given the current state, the submitted jobs and the outcome the
analyze-career API call would have, it returns the new state, the value
returned to the caller, and whether the API call was performed.  The
guards mirror the source: a falsy resumeText errors with "Please upload
a resume first" and returns null without calling the API; an empty jobs
list errors with "Please add at least one job posting" likewise; only
then is the API called, with its success stored as status done and its
failure stored as status error. -/
def runAnalysis {R : Type} (st : AnalysisState R) (jobs : List JobInput)
    (api : Except String R) : AnalysisState R × Option R × Bool :=
  if truthyText st.resumeText = false then
    ({ st with status := .error,
               error := some "Please upload a resume first" }, none, false)
  else if jobs.length = 0 then
    ({ st with status := .error,
               error := some "Please add at least one job posting" },
     none, false)
  else
    match api with
    | .ok r =>
        ({ st with status := .done, result := some r, error := none },
         some r, true)
    | .error m =>
        ({ st with status := .error, error := some m }, none, true)

/- ===================== Job matcher ranking (spec-modelled: the
   backend implementation is not part of the repository) ============= -/

/-- A ranked job match: the original submission index, the job id, the
match percentage, and the best-fit flag of the JobMatch API type. -/
structure RankedMatch where
  jobIdx : Nat
  jobId : String
  pct : ℚ
  is_best_fit : Bool
deriving DecidableEq

/-- Modelled from the spec: the descending stable ranking order of the
missing backend JobMatcher on submission-enumerated matches — higher
match percentage first, ties in original submission order. -/
def matchOrder (a b : Nat × String × ℚ) : Prop :=
  b.2.2 < a.2.2 ∨ (a.2.2 = b.2.2 ∧ a.1 ≤ b.1)

instance : DecidableRel matchOrder := fun a b => by
  unfold matchOrder; infer_instance

instance : IsTotal (Nat × String × ℚ) matchOrder :=
  ⟨fun a b => by
    unfold matchOrder
    rcases lt_trichotomy a.2.2 b.2.2 with h | h | h
    · exact Or.inr (Or.inl h)
    · rcases Nat.le_total a.1 b.1 with hn | hn
      · exact Or.inl (Or.inr ⟨h, hn⟩)
      · exact Or.inr (Or.inr ⟨h.symm, hn⟩)
    · exact Or.inl (Or.inl h)⟩

instance : IsTrans (Nat × String × ℚ) matchOrder :=
  ⟨fun a b c hab hbc => by
    unfold matchOrder at hab hbc ⊢
    rcases hab with h1 | ⟨h1, h1i⟩ <;> rcases hbc with h2 | ⟨h2, h2i⟩
    · exact Or.inl (lt_trans h2 h1)
    · exact Or.inl (by rw [← h2]; exact h1)
    · exact Or.inl (by rw [h1]; exact h2)
    · exact Or.inr ⟨h1.trans h2, le_trans h1i h2i⟩⟩

/-- Mark the head of a ranked list as the best fit and everything else
as not the best fit. -/
def markFirst : List (Nat × String × ℚ) → List RankedMatch
  | [] => []
  | h :: t =>
      ⟨h.1, h.2.1, h.2.2, true⟩ ::
        t.map (fun e => ⟨e.1, e.2.1, e.2.2, false⟩)

/-- Modelled from the spec: the missing backend JobMatcher ranking —
stable sort of the submitted matches by match percentage descending
(ties keep original submission order), with the top entry marked
is_best_fit. -/
def rankMatches (ms : List (String × ℚ)) : List RankedMatch :=
  markFirst (List.insertionSort matchOrder ms.enum)

/-- Projection of a ranked match back to its enumerated submission. -/
def RankedMatch.key (e : RankedMatch) : Nat × String × ℚ :=
  (e.jobIdx, e.jobId, e.pct)

/- ============================ Theorems ============================= -/

/-- C6: for every role category the selected weight profile sums to
exactly 100, and the default profile is skills 40, experience 30,
education 15, certifications 10, keywords 5. -/
theorem weight_profiles_sum_to_100 :
    (∀ rt : RoleType, (selectWeightProfile rt).totalWeight = 100) ∧
    defaultWeightProfile.components =
      [("skills_match", 40), ("experience", 30), ("education", 15),
       ("certifications", 10), ("keywords", 5)] := by
  refine ⟨fun rt => ?_, rfl⟩
  cases rt <;> rfl

/-- C8: for every percentage in the valid range 0-100, the knowledge-base
score-interpretation table is the bucketing claimed (at least 80
excellent, at least 60 good, at least 40 fair, else poor), and it agrees
threshold-for-threshold with the frontend score color in ScoreHero.tsx. -/
theorem match_level_bucketing (p : Nat) (hp : p ≤ 100) :
    matchLevelOf p =
      (if 80 ≤ p then MatchLevel.excellent
       else if 60 ≤ p then MatchLevel.good
       else if 40 ≤ p then MatchLevel.fair
       else MatchLevel.poor) ∧
    (matchLevelOf p = .excellent ↔ getScoreColor p = .neonGreen) ∧
    (matchLevelOf p = .good ↔ getScoreColor p = .neonCyan) ∧
    (matchLevelOf p = .fair ↔ getScoreColor p = .neonYellow) ∧
    (matchLevelOf p = .poor ↔ getScoreColor p = .red) := by
  interval_cases p <;> decide

/-- Witness for C8 at the concrete percentage 72. -/
theorem match_level_bucketing_witness :
    72 ≤ 100 ∧
    (matchLevelOf 72 =
      (if 80 ≤ 72 then MatchLevel.excellent
       else if 60 ≤ 72 then MatchLevel.good
       else if 40 ≤ 72 then MatchLevel.fair
       else MatchLevel.poor) ∧
    (matchLevelOf 72 = .excellent ↔ getScoreColor 72 = .neonGreen) ∧
    (matchLevelOf 72 = .good ↔ getScoreColor 72 = .neonCyan) ∧
    (matchLevelOf 72 = .fair ↔ getScoreColor 72 = .neonYellow) ∧
    (matchLevelOf 72 = .poor ↔ getScoreColor 72 = .red)) :=
  ⟨by decide, match_level_bucketing 72 (by decide)⟩

/-- Helper: the first-hit loop of detect_seniority computes the same
modifier as a find? over the keyword table. -/
theorem firstSeniorityModifier_eq_find (s : String)
    (l : List (String × Int)) :
    firstSeniorityModifier s l =
      (l.find? (fun p => substrB p.1 s)).elim 0 Prod.snd := by
  induction l with
  | nil => rfl
  | cons hd tl ih =>
      by_cases h : substrB hd.1 s = true
      · simp [firstSeniorityModifier, List.find?, h]
      · simp only [Bool.not_eq_true] at h
        simp [firstSeniorityModifier, List.find?, h, ih]

/-- C3 counterexample: the code matches keywords by raw substring
containment and stops at the first hit, so it disagrees with the claimed
word-boundary, sum-all-matches algorithm.  On "Leadership Coordinator"
the code finds "lead" inside "leadership" and returns 6 while the
claimed algorithm matches nothing and returns 2; on "Senior Staff
Engineer" the code adds only "senior" and returns 5 while the claimed
algorithm adds both "senior" and "staff" and returns 8. -/
theorem detect_seniority_counterexample :
    detect_seniority "Leadership Coordinator" = 6 ∧
    detectSeniorityClaimModel "Leadership Coordinator" = 2 ∧
    detect_seniority "Senior Staff Engineer" = 5 ∧
    detectSeniorityClaimModel "Senior Staff Engineer" = 8 ∧
    detect_seniority "Leadership Coordinator" ≠
      detectSeniorityClaimModel "Leadership Coordinator" := by
  refine ⟨by decide, by decide, by decide, by decide, by decide⟩

/-- C3 amended: detect_seniority starts from base level 2, adds the
weight of only the FIRST keyword of the table that occurs
case-insensitively as a raw substring of the title (at most one keyword
counts, and "lead" does match inside "leadership"), and clamps the
result to [0, 8]. -/
theorem detect_seniority_amended (title : String) :
    0 ≤ detect_seniority title ∧
    detect_seniority title ≤ 8 ∧
    detect_seniority title =
      max 0 (min 8 (2 + ((SENIORITY_KEYWORDS.find?
        (fun p => substrB p.1 (lowerString title))).elim 0 Prod.snd))) := by
  refine ⟨le_max_left 0 _, ?_, ?_⟩
  · exact max_le (by norm_num) (min_le_left 8 _)
  · unfold detect_seniority
    rw [firstSeniorityModifier_eq_find]

/-- C4 counterexample: an 8-month PJ role deducts 0 points (the
knowledge base says "If tenure 6-12 months as PJ: 0 points (not -10)"),
not half of the 10 points an 8-month CLT role deducts. -/
theorem pj_tenure_counterexample :
    tenureDeduction .pj 8 = 0 ∧
    tenureDeduction .clt 8 = 10 ∧
    tenureDeduction .pj 8 ≠ (1 / 2 : ℚ) * tenureDeduction .clt 8 := by
  refine ⟨by norm_num [tenureDeduction, baseTenureDeduction],
    by norm_num [tenureDeduction, baseTenureDeduction],
    by norm_num [tenureDeduction, baseTenureDeduction]⟩

/-- C4 amended: a PJ entry with tenure under 6 months deducts 5 where
CLT deducts 15, a PJ entry with tenure 6-12 months deducts 0 where CLT
deducts 10 (so an 8-month PJ role deducts 0, not half of 10), and only
from 12 months on is the PJ deduction half the CLT deduction. -/
theorem pj_tenure_amended (m : Nat) :
    (m < 6 → tenureDeduction .pj m = 5 ∧ tenureDeduction .clt m = 15) ∧
    (6 ≤ m → m < 12 →
      tenureDeduction .pj m = 0 ∧ tenureDeduction .clt m = 10) ∧
    (12 ≤ m → tenureDeduction .pj m = tenureDeduction .clt m / 2) := by
  refine ⟨fun h => ?_, fun h h2 => ?_, fun h => ?_⟩
  · constructor <;> simp [tenureDeduction, baseTenureDeduction, h]
  · have h6 : ¬ m < 6 := by omega
    constructor <;> simp [tenureDeduction, baseTenureDeduction, h2, h6]
  · have h6 : ¬ m < 6 := by omega
    have h12 : ¬ m < 12 := by omega
    simp [tenureDeduction, baseTenureDeduction, h6, h12]

/-- Witness for the amended C4 statement at the concrete 8-month tenure. -/
theorem pj_tenure_amended_witness :
    6 ≤ 8 ∧ 8 < 12 ∧
    tenureDeduction .pj 8 = 0 ∧ tenureDeduction .clt 8 = 10 :=
  ⟨by decide, by decide,
   ((pj_tenure_amended 8).2.1 (by decide) (by decide)).1,
   ((pj_tenure_amended 8).2.1 (by decide) (by decide)).2⟩

/-- C5 counterexample: a restructuring mention does not fully waive the
tenure deduction — the knowledge base reduces it by 30 percent.  An
8-month CLT role ended 2023 with a restructuring mention (and no other
mitigation) keeps a deduction of 7, not 0. -/
theorem restructuring_waiver_counterexample :
    entryTenureDeduction .clt 8 ⟨2023, false, false, true, false⟩ = 7 ∧
    entryTenureDeduction .clt 8 ⟨2023, false, false, true, false⟩ ≠ 0 := by
  refine ⟨?_, ?_⟩ <;>
    norm_num [entryTenureDeduction, layoffAdjustedDeduction,
      tenureDeduction, baseTenureDeduction]

/-- C5 amended: for roles ended 2022-2024, a known-layoff-list company
halves the tenure deduction, an explicit layoff keyword (or startup
shutdown) fully waives it, and a restructuring keyword reduces it by 30
percent (multiplier 0.7) rather than waiving it; for roles ended outside
2022-2024 no layoff-era adjustment applies whatever the company or
keywords; and an 8-month CLT role ended 2023 at a known-layoff company
with a "laid off" mention incurs zero tenure penalty. -/
theorem layoff_adjustments_amended (year : Nat) (d : ℚ) :
    (2022 ≤ year → year ≤ 2024 →
      layoffAdjustedDeduction ⟨year, true, false, false, false⟩ d = d / 2 ∧
      (∀ co rs ss,
        layoffAdjustedDeduction ⟨year, co, true, rs, ss⟩ d = 0) ∧
      layoffAdjustedDeduction ⟨year, false, false, true, false⟩ d =
        d * 7 / 10) ∧
    (¬ (2022 ≤ year ∧ year ≤ 2024) →
      ∀ co lk rs ss,
        layoffAdjustedDeduction ⟨year, co, lk, rs, ss⟩ d = d) ∧
    entryTenureDeduction .clt 8 ⟨2023, true, true, false, false⟩ = 0 := by
  refine ⟨fun h1 h2 => ⟨?_, fun co rs ss => ?_, ?_⟩,
      fun h co lk rs ss => ?_, ?_⟩
  · simp [layoffAdjustedDeduction, h1, h2]
  · simp [layoffAdjustedDeduction, h1, h2]
  · simp [layoffAdjustedDeduction, h1, h2]
  · simp [layoffAdjustedDeduction, h]
  · norm_num [entryTenureDeduction, layoffAdjustedDeduction,
      tenureDeduction, baseTenureDeduction]

/-- Witness for the amended C5 statement at deduction 10: the in-window
year 2023 (halved for a layoff company) and the out-of-window year 2020
(unadjusted even with every mitigation flag set). -/
theorem layoff_adjustments_amended_witness :
    2022 ≤ 2023 ∧ 2023 ≤ 2024 ∧ ¬ (2022 ≤ 2020 ∧ 2020 ≤ 2024) ∧
    layoffAdjustedDeduction ⟨2023, true, false, false, false⟩ 10 =
      10 / 2 ∧
    layoffAdjustedDeduction ⟨2020, true, true, true, true⟩ 10 = 10 :=
  ⟨by decide, by decide, by decide,
   ((layoff_adjustments_amended 2023 10).1 (by decide) (by decide)).1,
   (layoff_adjustments_amended 2020 10).2.1 (by decide) true true true
     true⟩

/-- C7: matchTier always returns exactly one of the weights 1 (direct
match), 1 (alias match), 4/5 (inferred match), 1/2 (category match) and
0 (no relation), in that precedence order. -/
theorem match_tier_weights (r j : String) :
    (matchTier r j = 1 ∨ matchTier r j = 4 / 5 ∨ matchTier r j = 1 / 2 ∨
      matchTier r j = 0) ∧
    (normSkill r = normSkill j → matchTier r j = 1) ∧
    (resolve_alias (normSkill r) = normSkill j → matchTier r j = 1) ∧
    (normSkill r ≠ normSkill j →
      resolve_alias (normSkill r) ≠ normSkill j →
      normSkill j ∈ inferred_skills (normSkill r) →
      matchTier r j = 4 / 5) ∧
    (normSkill r ≠ normSkill j →
      resolve_alias (normSkill r) ≠ normSkill j →
      normSkill j ∉ inferred_skills (normSkill r) →
      same_category (normSkill r) (normSkill j) →
      matchTier r j = 1 / 2) ∧
    (normSkill r ≠ normSkill j →
      resolve_alias (normSkill r) ≠ normSkill j →
      normSkill j ∉ inferred_skills (normSkill r) →
      ¬ same_category (normSkill r) (normSkill j) →
      matchTier r j = 0) := by
  unfold matchTier
  split_ifs with h1 h2 h3 h4 <;>
    refine ⟨by norm_num, ?_, ?_, ?_, ?_, ?_⟩ <;> intros <;>
      first | rfl | tauto

/-- Witness for C7: "py" against "Python" is an alias match of weight 1. -/
theorem match_tier_weights_witness :
    resolve_alias (normSkill "py") = normSkill "Python" ∧
    matchTier "py" "Python" = 1 :=
  ⟨by decide, (match_tier_weights "py" "Python").2.2.1 (by decide)⟩

/-- C9: taxonomy resolution is total and degrades instead of failing: a
token the taxonomy does not know (not an alias, in no category list, not
an inference key) resolves to category "uncategorized" and contributes
match weight 0 against every required skill except a literal
(case-insensitive) token-equal one, which still matches directly with
weight 1. -/
theorem unknown_skill_degrades (s j : String)
    (h : ¬ RecognizedSkill (normSkill s)) :
    skillCategory (normSkill s) = "uncategorized" ∧
    (normSkill s = normSkill j → matchTier s j = 1) ∧
    (normSkill s ≠ normSkill j → matchTier s j = 0) := by
  have hA : ∀ p ∈ SKILL_ALIASES, ¬ p.1 = normSkill s :=
    fun p hp he => h (Or.inl ⟨p, hp, he⟩)
  have hC : ∀ c ∈ SKILL_CATEGORIES, normSkill s ∉ c.2 :=
    fun c hc hm => h (Or.inr (Or.inl ⟨c, hc, hm⟩))
  have hI : ∀ p ∈ SKILL_INFERENCE, ¬ p.1 = normSkill s :=
    fun p hp he => h (Or.inr (Or.inr ⟨p, hp, he⟩))
  have hres : resolve_alias (normSkill s) = normSkill s := by
    unfold resolve_alias
    rw [List.find?_eq_none.mpr (fun p hp => by simpa using hA p hp)]
    rfl
  have hinf : inferred_skills (normSkill s) = [] := by
    unfold inferred_skills
    rw [List.find?_eq_none.mpr (fun p hp => by simpa using hI p hp)]
    rfl
  refine ⟨?_, ?_, ?_⟩
  · unfold skillCategory
    rw [List.find?_eq_none.mpr (fun c hc => by simpa using hC c hc)]
    rfl
  · intro he
    unfold matchTier
    rw [if_pos he]
  · intro hne
    unfold matchTier
    rw [if_neg hne, if_neg (by rw [hres]; exact hne),
      if_neg (by rw [hinf]; exact List.not_mem_nil _),
      if_neg (by rintro ⟨c, hc, hm, _⟩; exact hC c hc hm)]

/-- Witness for C9: the made-up token "flibber" is unrecognized, gets
category "uncategorized", weight 0 against "python", and weight 1
against its own case variant "Flibber". -/
theorem unknown_skill_degrades_witness :
    (¬ RecognizedSkill (normSkill "flibber")) ∧
    skillCategory (normSkill "flibber") = "uncategorized" ∧
    matchTier "flibber" "python" = 0 ∧
    matchTier "flibber" "Flibber" = 1 :=
  ⟨by decide,
   (unknown_skill_degrades "flibber" "python" (by decide)).1,
   (unknown_skill_degrades "flibber" "python" (by decide)).2.2 (by decide),
   (unknown_skill_degrades "flibber" "Flibber" (by decide)).2.1 (by decide)⟩

/-- Helper: the skill component is between 0 and its component max. -/
theorem skillScore_bounds (mr mp maxPts : ℚ) (hmr : 0 ≤ mr)
    (hmp : 0 ≤ mp) (hM : 0 ≤ maxPts) :
    0 ≤ skillScore mr mp maxPts ∧ skillScore mr mp maxPts ≤ maxPts :=
  ⟨le_min (by linarith) hM, min_le_right _ _⟩

/-- Helper: the experience component is between 0 and its component
max. -/
theorem experienceScore_bounds (years req maxPts : ℚ) (hy : 0 ≤ years)
    (hr : 0 ≤ req) (hM : 0 ≤ maxPts) :
    0 ≤ experienceScore years req maxPts ∧
      experienceScore years req maxPts ≤ maxPts := by
  unfold experienceScore
  split_ifs with h1 h2
  · exact ⟨le_refl 0, hM⟩
  · exact ⟨hM, le_refl _⟩
  · have hpos : 0 < req := lt_of_le_of_ne hr (Ne.symm h1)
    have hmin : 0 ≤ min years req := le_min hy hr
    constructor
    · exact div_nonneg (mul_nonneg hM hmin) (le_of_lt hpos)
    · rw [div_le_iff₀ hpos]
      exact mul_le_mul_of_nonneg_left (min_le_right years req) hM

/-- Helper: the education component is between 0 and its component
max. -/
theorem educationScore_bounds (rel maxPts : ℚ) (hrel : 0 ≤ rel)
    (hM : 0 ≤ maxPts) :
    0 ≤ educationScore rel maxPts ∧ educationScore rel maxPts ≤ maxPts :=
  ⟨le_min hrel hM, min_le_right _ _⟩

/-- Helper: the certification component is between 0 and its component
max. -/
theorem certificationScore_bounds (cnt fx maxPts : ℚ) (hc : 0 ≤ cnt)
    (hf : 0 ≤ fx) (hM : 0 ≤ maxPts) :
    0 ≤ certificationScore cnt fx maxPts ∧
      certificationScore cnt fx maxPts ≤ maxPts :=
  ⟨le_min (mul_nonneg hc hf) hM, min_le_right _ _⟩

/-- Helper: the keyword component is between 0 and its component max. -/
theorem keywordScore_bounds (km kt maxPts : ℚ) (h0 : 0 ≤ km)
    (h1 : km ≤ kt) (hM : 0 ≤ maxPts) :
    0 ≤ keywordScore km kt maxPts ∧ keywordScore km kt maxPts ≤ maxPts := by
  unfold keywordScore
  split_ifs with h
  · exact ⟨le_refl 0, hM⟩
  · have hpos : 0 < kt := lt_of_le_of_ne (le_trans h0 h1) (Ne.symm h)
    constructor
    · exact div_nonneg (mul_nonneg hM h0) (le_of_lt hpos)
    · rw [div_le_iff₀ hpos]
      exact mul_le_mul_of_nonneg_left h1 hM

/-- C2: for every input (matched counts, years, relevance points,
certification count, keyword counts — including the zeroed values of an
empty resume or job text) and every weight profile whose component
maxima are nonnegative and sum to 100, the five component scores sum
exactly to the total score, each component is at most its profile
maximum, and the total lies in [0, 100]. -/
theorem ats_score_invariant
    (skMax exMax edMax ceMax kwMax mr mp years req rel cnt fx km kt : ℚ)
    (hsum : skMax + exMax + edMax + ceMax + kwMax = 100)
    (hskM : 0 ≤ skMax) (hexM : 0 ≤ exMax) (hedM : 0 ≤ edMax)
    (hceM : 0 ≤ ceMax) (hkwM : 0 ≤ kwMax)
    (hmr : 0 ≤ mr) (hmp : 0 ≤ mp) (hyears : 0 ≤ years) (hreq : 0 ≤ req)
    (hrel : 0 ≤ rel) (hcnt : 0 ≤ cnt) (hfx : 0 ≤ fx)
    (hkm : 0 ≤ km) (hkt : km ≤ kt) :
    skillScore mr mp skMax + experienceScore years req exMax +
        educationScore rel edMax + certificationScore cnt fx ceMax +
        keywordScore km kt kwMax =
      atsTotalScore (skillScore mr mp skMax)
        (experienceScore years req exMax) (educationScore rel edMax)
        (certificationScore cnt fx ceMax) (keywordScore km kt kwMax) ∧
    skillScore mr mp skMax ≤ skMax ∧
    experienceScore years req exMax ≤ exMax ∧
    educationScore rel edMax ≤ edMax ∧
    certificationScore cnt fx ceMax ≤ ceMax ∧
    keywordScore km kt kwMax ≤ kwMax ∧
    0 ≤ atsTotalScore (skillScore mr mp skMax)
        (experienceScore years req exMax) (educationScore rel edMax)
        (certificationScore cnt fx ceMax) (keywordScore km kt kwMax) ∧
    atsTotalScore (skillScore mr mp skMax)
        (experienceScore years req exMax) (educationScore rel edMax)
        (certificationScore cnt fx ceMax) (keywordScore km kt kwMax) ≤
      100 := by
  obtain ⟨s0, s1⟩ := skillScore_bounds mr mp skMax hmr hmp hskM
  obtain ⟨e0, e1⟩ := experienceScore_bounds years req exMax hyears hreq hexM
  obtain ⟨d0, d1⟩ := educationScore_bounds rel edMax hrel hedM
  obtain ⟨c0, c1⟩ := certificationScore_bounds cnt fx ceMax hcnt hfx hceM
  obtain ⟨k0, k1⟩ := keywordScore_bounds km kt kwMax hkm hkt hkwM
  have hS0 : 0 ≤ skillScore mr mp skMax + experienceScore years req exMax +
      educationScore rel edMax + certificationScore cnt fx ceMax +
      keywordScore km kt kwMax := by linarith
  have hS100 : skillScore mr mp skMax + experienceScore years req exMax +
      educationScore rel edMax + certificationScore cnt fx ceMax +
      keywordScore km kt kwMax ≤ 100 := by linarith
  refine ⟨?_, s1, e1, d1, c1, k1, le_max_left 0 _,
    max_le (by norm_num) (min_le_left _ _)⟩
  unfold atsTotalScore
  rw [min_eq_right hS100, max_eq_right hS0]

/-- Witness for C2: the default profile (40/30/15/10/5) with a concrete
partially-matching resume; the components sum to the total score. -/
theorem ats_score_invariant_witness :
    (40 : ℚ) + 30 + 15 + 10 + 5 = 100 ∧
    skillScore 3 2 40 + experienceScore 2 5 30 + educationScore 10 15 +
        certificationScore 1 5 10 + keywordScore 2 4 5 =
      atsTotalScore (skillScore 3 2 40) (experienceScore 2 5 30)
        (educationScore 10 15) (certificationScore 1 5 10)
        (keywordScore 2 4 5) :=
  ⟨by norm_num,
   (ats_score_invariant 40 30 15 10 5 3 2 2 5 10 1 5 2 4 (by norm_num)
      (by norm_num) (by norm_num) (by norm_num) (by norm_num) (by norm_num)
      (by norm_num) (by norm_num) (by norm_num) (by norm_num) (by norm_num)
      (by norm_num) (by norm_num) (by norm_num) (by norm_num)).1⟩

/-- C10: whenever runAnalysis is invoked with a falsy stored resume text
or an empty jobs list, the API call is not performed, null is returned
to the caller, and the state is set to status error with a non-null
explanatory message. -/
theorem run_analysis_guards {R : Type} (st : AnalysisState R)
    (jobs : List JobInput) (api : Except String R)
    (h : truthyText st.resumeText = false ∨ jobs = []) :
    (runAnalysis st jobs api).2.2 = false ∧
    (runAnalysis st jobs api).2.1 = none ∧
    (runAnalysis st jobs api).1.status = .error ∧
    (runAnalysis st jobs api).1.error ≠ none := by
  rcases h with h | h
  · simp [runAnalysis, h]
  · by_cases ht : truthyText st.resumeText = false
    · simp [runAnalysis, ht]
    · simp [runAnalysis, ht, h]

/-- Witness for C10: a state holding an empty-string resume text (falsy
in JavaScript) with an empty job list: no API call, null result, error
status and message. -/
theorem run_analysis_guards_witness :
    (truthyText (some "") = false ∨ ([] : List JobInput) = []) ∧
    ((runAnalysis (AnalysisState.mk .idle (some "") (none : Option Unit)
        none) [] (Except.ok ())).2.2 = false ∧
     (runAnalysis (AnalysisState.mk .idle (some "") (none : Option Unit)
        none) [] (Except.ok ())).2.1 = none ∧
     (runAnalysis (AnalysisState.mk .idle (some "") (none : Option Unit)
        none) [] (Except.ok ())).1.status = .error ∧
     (runAnalysis (AnalysisState.mk .idle (some "") (none : Option Unit)
        none) [] (Except.ok ())).1.error ≠ none) :=
  ⟨Or.inl (by decide),
   run_analysis_guards (AnalysisState.mk .idle (some "")
     (none : Option Unit) none) [] (Except.ok ()) (Or.inl (by decide))⟩

/-- Helper: marking the best fit keeps the enumerated submissions
unchanged. -/
theorem markFirst_map_key (l : List (Nat × String × ℚ)) :
    (markFirst l).map RankedMatch.key = l := by
  cases l with
  | nil => rfl
  | cons h t =>
      simp only [markFirst, List.map_cons, List.map_map]
      refine congrArg₂ List.cons rfl ?_
      have hid : (RankedMatch.key ∘ fun (e : Nat × String × ℚ) =>
          RankedMatch.mk e.1 e.2.1 e.2.2 false) = id := rfl
      rw [hid, List.map_id]

/-- Helper: marking the best fit preserves any pairwise relation that
ignores the best-fit flag. -/
theorem markFirst_pairwise (S : (Nat × String × ℚ) → (Nat × String × ℚ) → Prop)
    (R : RankedMatch → RankedMatch → Prop)
    (hSR : ∀ a b (ba bb : Bool), S a b →
      R ⟨a.1, a.2.1, a.2.2, ba⟩ ⟨b.1, b.2.1, b.2.2, bb⟩)
    (l : List (Nat × String × ℚ)) (hl : l.Pairwise S) :
    (markFirst l).Pairwise R := by
  cases l with
  | nil => exact List.Pairwise.nil
  | cons h t =>
      obtain ⟨hall, ht⟩ := List.pairwise_cons.mp hl
      simp only [markFirst]
      refine List.pairwise_cons.mpr ⟨?_, ?_⟩
      · intro b hb
        obtain ⟨e, he, rfl⟩ := List.mem_map.mp hb
        exact hSR _ _ _ _ (hall e he)
      · rw [List.pairwise_map]
        exact ht.imp (fun hab => hSR _ _ _ _ hab)

/-- Helper: on a nonempty list sorted by the ranking order, the marked
list has exactly one best fit, and that entry has the maximal
percentage with ties resolved toward the smaller submission index. -/
theorem markFirst_best (l : List (Nat × String × ℚ))
    (hs : l.Sorted matchOrder) (hne : l ≠ []) :
    ((markFirst l).countP (fun e => e.is_best_fit) = 1) ∧
    (∀ e ∈ markFirst l, e.is_best_fit = true →
      (∀ f ∈ markFirst l, f.pct ≤ e.pct) ∧
      (∀ f ∈ markFirst l, f.pct = e.pct → e.jobIdx ≤ f.jobIdx)) := by
  cases l with
  | nil => exact absurd rfl hne
  | cons h0 t =>
      obtain ⟨hall, ht⟩ := List.pairwise_cons.mp hs
      constructor
      · simp only [markFirst, List.countP_cons, List.countP_map]
        rw [List.countP_eq_zero.mpr (fun a _ => by simp)]
        simp
      · intro e he hbest
        have he2 : e = ⟨h0.1, h0.2.1, h0.2.2, true⟩ := by
          rcases List.mem_cons.mp he with h | h
          · exact h
          · obtain ⟨x, hx, rfl⟩ := List.mem_map.mp h
            exact absurd hbest (by simp)
        subst he2
        constructor
        · intro f hf
          rcases List.mem_cons.mp hf with h | h
          · rw [h]
          · obtain ⟨x, hx, rfl⟩ := List.mem_map.mp h
            rcases hall x hx with hlt | ⟨heq, _⟩
            · exact le_of_lt hlt
            · exact le_of_eq heq.symm
        · intro f hf hpct
          rcases List.mem_cons.mp hf with h | h
          · rw [h]
          · obtain ⟨x, hx, rfl⟩ := List.mem_map.mp h
            rcases hall x hx with hlt | ⟨heq, hle⟩
            · exact absurd hpct (ne_of_lt hlt)
            · exact hle

/-- C1: for every nonempty list of submitted job matches, the ranked
output has exactly one entry flagged is_best_fit; that entry carries the
maximal match percentage, with ties resolved in favor of the
earlier-submitted job; the output is sorted by match percentage
descending with ties in original submission order; and the output is a
permutation of the enumerated submissions (no match is lost, duplicated
or altered). -/
theorem job_match_best_fit_invariant (ms : List (String × ℚ))
    (hne : ms ≠ []) :
    ((rankMatches ms).countP (fun e => e.is_best_fit) = 1) ∧
    (∀ e ∈ rankMatches ms, e.is_best_fit = true →
      (∀ f ∈ rankMatches ms, f.pct ≤ e.pct) ∧
      (∀ f ∈ rankMatches ms, f.pct = e.pct → e.jobIdx ≤ f.jobIdx)) ∧
    (rankMatches ms).Pairwise
      (fun a b => b.pct < a.pct ∨ (a.pct = b.pct ∧ a.jobIdx < b.jobIdx)) ∧
    List.Perm ((rankMatches ms).map RankedMatch.key) ms.enum := by
  have hperm := List.perm_insertionSort matchOrder ms.enum
  have hsorted := List.sorted_insertionSort matchOrder ms.enum
  have hlne : List.insertionSort matchOrder ms.enum ≠ [] := by
    intro h
    have hlen := hperm.length_eq
    rw [h] at hlen
    simp only [List.length_nil, List.enum_length] at hlen
    exact hne (List.length_eq_zero.mp hlen.symm)
  obtain ⟨hcount, hbest⟩ := markFirst_best _ hsorted hlne
  have hidx : (List.insertionSort matchOrder ms.enum).Pairwise
      (fun a b => a.1 ≠ b.1) := by
    have h1 : (ms.enum.map Prod.fst).Nodup := List.nodup_enum_map_fst ms
    have h2 : ((List.insertionSort matchOrder ms.enum).map Prod.fst).Nodup :=
      ((hperm.map Prod.fst).nodup_iff).mpr h1
    exact List.pairwise_map.mp h2
  have hstrict : (List.insertionSort matchOrder ms.enum).Pairwise
      (fun a b => b.2.2 < a.2.2 ∨ (a.2.2 = b.2.2 ∧ a.1 < b.1)) := by
    refine (hsorted.and hidx).imp ?_
    rintro a b ⟨hm, hab⟩
    rcases hm with h | ⟨h1, h2⟩
    · exact Or.inl h
    · exact Or.inr ⟨h1, lt_of_le_of_ne h2 hab⟩
  refine ⟨hcount, hbest, ?_, ?_⟩
  · exact markFirst_pairwise _ _ (fun a b ba bb hab => hab) _ hstrict
  · unfold rankMatches
    rw [markFirst_map_key]
    exact hperm

/-- Witness for C1 on three concrete submissions with a tied top
percentage: the output has exactly one best fit. -/
theorem job_match_best_fit_invariant_witness :
    ([("a", (70 : ℚ)), ("b", 85), ("c", 85)] ≠
      ([] : List (String × ℚ))) ∧
    ((rankMatches [("a", (70 : ℚ)), ("b", 85), ("c", 85)]).countP
      (fun e => e.is_best_fit) = 1) :=
  ⟨List.cons_ne_nil _ _,
   (job_match_best_fit_invariant [("a", (70 : ℚ)), ("b", 85), ("c", 85)]
     (List.cons_ne_nil _ _)).1⟩
